import Mathlib

/-!  A shallow embedding of the batch fraud-prediction utility (predict.py) and
proofs about its input alignment, artifact loading, preprocessing adapter,
inference dispatch and result assembly.  Machine floats are modelled as
rationals; pandas tables are modelled as ordered lists of named columns whose
cells are optional values (`none` is the missing-value sentinel NaN).  -/

namespace FraudDetect

/-- A scalar cell value of a table: a (rational-modelled) number or a string. -/
inductive Value where
  | num (x : ℚ)
  | str (s : String)
deriving DecidableEq

/-- Column dtype, as far as pandas distinguishes it for the fill heuristic. -/
inductive DType where
  | numeric
  | object
deriving DecidableEq

/-- A pandas column: a dtype plus cells, where `none` is the NaN sentinel. -/
structure Col where
  dtype : DType
  cells : List (Option Value)
deriving DecidableEq

/-- A pandas DataFrame: named columns in order, plus a row index. -/
structure DataFrame where
  cols : List (String × Col)
  index : List Nat
deriving DecidableEq

def DataFrame.columns (df : DataFrame) : List String :=
  df.cols.map Prod.fst

def DataFrame.nrows (df : DataFrame) : Nat :=
  df.index.length

/-- First-match lookup of a column by name (pandas label lookup). -/
def lookupCol (n : String) : List (String × Col) → Option Col
  | [] => none
  | c :: cs => if c.1 = n then some c.2 else lookupCol n cs

/-- First-match lookup in a defaults mapping (python dict.get). -/
def lookupVal (md : List (String × Value)) (n : String) : Option Value :=
  match md with
  | [] => none
  | p :: ps => if p.1 = n then some p.2 else lookupVal ps n

/-- dtype pandas assigns to a column created from a scalar: NaN gives float. -/
def dtypeOfOpt : Option Value → DType
  | none => DType.numeric
  | some (Value.num _) => DType.numeric
  | some (Value.str _) => DType.object

/-- The column produced by the scalar assignment df[col] = v over k rows. -/
def scalarCol (k : Nat) (v : Option Value) : Col :=
  { dtype := dtypeOfOpt v, cells := List.replicate k v }

/-- Appending a fresh column: pandas df[col] = scalar with col not among
df.columns inserts the new column in last position. -/
def DataFrame.appendCol (df : DataFrame) (n : String) (c : Col) : DataFrame :=
  { df with cols := df.cols ++ [(n, c)] }

/-- Whether a column has a missing cell (pandas series.isna().any()). -/
def hasNA (c : Col) : Bool :=
  c.cells.any Option.isNone

/-- pandas series.fillna(v): replace missing cells by v; filling a numeric
column with a string changes the dtype to object. -/
def Col.fillna (c : Col) (v : Value) : Col :=
  { dtype :=
      match c.dtype, v with
      | DType.numeric, Value.str _ => DType.object
      | d, _ => d,
    cells := c.cells.map (fun cell => some (cell.getD v)) }

/-- The optional JSON metadata object, with its two possible defaults keys. -/
structure Metadata where
  feature_defaults : Option (List (String × Value))
  defaults : Option (List (String × Value))
deriving DecidableEq

/-- metadata.get("feature_defaults", \x7b\x7d) or metadata.get("defaults", \x7b\x7d):
python `or` falls through to the second mapping when the first one is absent
or empty; an absent metadata object yields no defaults at all. -/
def metaDefaultsOf : Option Metadata → List (String × Value)
  | none => []
  | some m =>
      match m.feature_defaults with
      | some l => if l.isEmpty then m.defaults.getD [] else l
      | none => m.defaults.getD []

/-- The first loop of prepare_input_dataframe: for each feature column absent
from df, append it filled with the metadata default for that name, else NaN. -/
def addMissingColumns (md : List (String × Value)) : DataFrame → List String → DataFrame
  | df, [] => df
  | df, c :: cs =>
      if c ∈ df.columns then addMissingColumns md df cs
      else addMissingColumns md (df.appendCol c (scalarCol df.nrows (lookupVal md c))) cs

/-- df[list(names)]: the named columns, in the requested order. -/
def selectCols (cols : List (String × Col)) : List String → List (String × Col)
  | [] => []
  | n :: ns =>
      match lookupCol n cols with
      | some c => (n, c) :: selectCols cols ns
      | none => selectCols cols ns

def DataFrame.select (df : DataFrame) (names : List String) : DataFrame :=
  { cols := selectCols df.cols names, index := df.index }

/-- The body of the final fill loop: a column still containing missing values
is filled from the metadata default when one exists for its name, else with 0
when its dtype is numeric and with the empty string otherwise. -/
def fillCol (md : List (String × Value)) (n : String) (c : Col) : Col :=
  if hasNA c then
    match lookupVal md n with
    | some v => c.fillna v
    | none =>
        match c.dtype with
        | DType.numeric => c.fillna (Value.num 0)
        | DType.object => c.fillna (Value.str "")
  else c

def fillMissing (md : List (String × Value)) (df : DataFrame) : DataFrame :=
  { cols := df.cols.map (fun nc => (nc.1, fillCol md nc.1 nc.2)), index := df.index }

/-- prepare_input_dataframe.  The python function first mutates its argument in
place by appending the missing feature columns, then rebinds a local name to a
copy restricted and reordered to the feature list, and fills remaining missing
values in that copy only.  The first component below is the caller-visible
mutated table, the second is the returned table. -/
def prepare_input_dataframe (df : DataFrame) (feats : List String)
    (metadata : Option Metadata) : DataFrame × DataFrame :=
  (addMissingColumns (metaDefaultsOf metadata) df feats,
   fillMissing (metaDefaultsOf metadata)
     ((addMissingColumns (metaDefaultsOf metadata) df feats).select feats))

example :
    (prepare_input_dataframe
      { cols := [("x", { dtype := DType.numeric, cells := [some (Value.num 7)] })],
        index := [0] }
      ["a", "x"] none).2.columns = ["a", "x"] := by decide

example :
    (prepare_input_dataframe
      { cols := [("x", { dtype := DType.numeric, cells := [some (Value.num 7)] })],
        index := [0] }
      ["a", "x"] none).2.cols =
    [("a", { dtype := DType.numeric, cells := [some (Value.num 0)] }),
     ("x", { dtype := DType.numeric, cells := [some (Value.num 7)] })] := by decide

lemma lookupCol_append_of_mem (n : String) (l₁ l₂ : List (String × Col))
    (h : n ∈ l₁.map Prod.fst) :
    lookupCol n (l₁ ++ l₂) = lookupCol n l₁ := by
  induction l₁ with
  | nil => simp at h
  | cons p ps ih =>
      by_cases hp : p.1 = n
      · simp [lookupCol, hp]
      · simp only [List.map_cons, List.mem_cons] at h
        rcases h with h | h
        · exact absurd h.symm hp
        · simp [lookupCol, hp, ih h]

lemma lookupCol_eq_none_of_not_mem (n : String) (l : List (String × Col))
    (h : n ∉ l.map Prod.fst) :
    lookupCol n l = none := by
  induction l with
  | nil => rfl
  | cons p ps ih =>
      simp only [List.map_cons, List.mem_cons] at h
      push_neg at h
      simp only [lookupCol]
      rw [if_neg (fun hp => h.1 hp.symm)]
      exact ih h.2

lemma lookupCol_isSome_of_mem (n : String) (l : List (String × Col))
    (h : n ∈ l.map Prod.fst) :
    (lookupCol n l).isSome := by
  induction l with
  | nil => simp at h
  | cons p ps ih =>
      by_cases hp : p.1 = n
      · simp [lookupCol, hp]
      · simp only [List.map_cons, List.mem_cons] at h
        rcases h with h | h
        · exact absurd h.symm hp
        · simp [lookupCol, hp, ih h]

lemma lookupCol_append_of_not_mem (n : String) (l₁ l₂ : List (String × Col))
    (h : n ∉ l₁.map Prod.fst) :
    lookupCol n (l₁ ++ l₂) = lookupCol n l₂ := by
  induction l₁ with
  | nil => rfl
  | cons p ps ih =>
      simp only [List.map_cons, List.mem_cons] at h
      push_neg at h
      simp only [List.cons_append, lookupCol]
      rw [if_neg (fun hp => h.1 hp.symm)]
      exact ih h.2

lemma addMissingColumns_index (md : List (String × Value)) (feats : List String) :
    ∀ df : DataFrame, (addMissingColumns md df feats).index = df.index := by
  induction feats with
  | nil => intro df; rfl
  | cons c cs ih =>
      intro df
      by_cases hc : c ∈ df.columns
      · simp [addMissingColumns, hc, ih]
      · simp [addMissingColumns, hc, ih, DataFrame.appendCol]

lemma mem_columns_addMissingColumns (md : List (String × Value)) (feats : List String) :
    ∀ (df : DataFrame) (n : String), (n ∈ feats ∨ n ∈ df.columns) →
      n ∈ (addMissingColumns md df feats).columns := by
  induction feats with
  | nil =>
      intro df n h
      simpa [addMissingColumns] using h.resolve_left (by simp)
  | cons c cs ih =>
      intro df n h
      by_cases hc : c ∈ df.columns
      · simp only [addMissingColumns, hc, if_pos]
        apply ih
        rcases h with h | h
        · rcases List.mem_cons.1 h with h | h
          · exact Or.inr (h ▸ hc)
          · exact Or.inl h
        · exact Or.inr h
      · simp only [addMissingColumns, hc, if_neg, not_false_iff]
        apply ih
        rcases h with h | h
        · rcases List.mem_cons.1 h with h | h
          · refine Or.inr ?_
            subst h
            simp [DataFrame.columns, DataFrame.appendCol]
          · exact Or.inl h
        · refine Or.inr ?_
          simp [DataFrame.columns, DataFrame.appendCol] at h ⊢
          exact Or.inl h

lemma lookupCol_addMissingColumns_of_mem (md : List (String × Value))
    (feats : List String) :
    ∀ (df : DataFrame) (n : String), n ∈ df.columns →
      lookupCol n (addMissingColumns md df feats).cols = lookupCol n df.cols := by
  induction feats with
  | nil => intro df n _; rfl
  | cons c cs ih =>
      intro df n h
      by_cases hc : c ∈ df.columns
      · simp only [addMissingColumns, hc, if_pos]
        exact ih df n h
      · simp only [addMissingColumns, hc, if_neg, not_false_iff]
        have hmem : n ∈ (df.appendCol c (scalarCol df.nrows (lookupVal md c))).columns := by
          simp [DataFrame.columns, DataFrame.appendCol] at h ⊢
          exact Or.inl h
        rw [ih _ n hmem]
        exact lookupCol_append_of_mem n df.cols _ h

lemma lookupCol_addMissingColumns_of_new (md : List (String × Value))
    (feats : List String) :
    ∀ (df : DataFrame) (n : String), n ∈ feats → n ∉ df.columns →
      lookupCol n (addMissingColumns md df feats).cols
        = some (scalarCol df.nrows (lookupVal md n)) := by
  induction feats with
  | nil => intro df n h _; simp at h
  | cons c cs ih =>
      intro df n hmem hnot
      by_cases hc : c ∈ df.columns
      · have hnc : n ≠ c := fun h => hnot (h ▸ hc)
        have hmem' : n ∈ cs := (List.mem_cons.1 hmem).resolve_left hnc
        simp only [addMissingColumns, hc, if_pos]
        exact ih df n hmem' hnot
      · simp only [addMissingColumns, hc, if_neg, not_false_iff]
        by_cases hnc : n = c
        · subst hnc
          have hmemA : n ∈ (df.appendCol n (scalarCol df.nrows (lookupVal md n))).columns := by
            simp [DataFrame.columns, DataFrame.appendCol]
          rw [lookupCol_addMissingColumns_of_mem md cs _ n hmemA]
          have hn : n ∉ df.cols.map Prod.fst := hnot
          simp [DataFrame.appendCol, lookupCol_append_of_not_mem n df.cols _ hn, lookupCol]
        · have hmem' : n ∈ cs := (List.mem_cons.1 hmem).resolve_left hnc
          have hcolsA : (df.appendCol c (scalarCol df.nrows (lookupVal md c))).columns
              = df.columns ++ [c] := by
            simp [DataFrame.columns, DataFrame.appendCol]
          have hnot' : n ∉ (df.appendCol c (scalarCol df.nrows (lookupVal md c))).columns := by
            rw [hcolsA]
            intro hmem2
            rcases List.mem_append.1 hmem2 with h2 | h2
            · exact hnot h2
            · exact hnc (List.mem_singleton.1 h2)
          have := ih _ n hmem' hnot'
          rw [this]
          have hidx : (df.appendCol c (scalarCol df.nrows (lookupVal md c))).nrows = df.nrows := rfl
          rw [hidx]

lemma selectCols_map_fst (cols : List (String × Col)) :
    ∀ names : List String, (∀ n ∈ names, n ∈ cols.map Prod.fst) →
      (selectCols cols names).map Prod.fst = names := by
  intro names
  induction names with
  | nil => intro _; rfl
  | cons n ns ih =>
      intro h
      have hn := h n (List.mem_cons_self n ns)
      obtain ⟨c, hc⟩ := Option.isSome_iff_exists.1 (lookupCol_isSome_of_mem n cols hn)
      simp only [selectCols, hc, List.map_cons]
      rw [ih (fun m hm => h m (List.mem_cons_of_mem n hm))]

lemma lookupCol_selectCols (cols : List (String × Col)) :
    ∀ (names : List String) (n : String) (c : Col), n ∈ names →
      lookupCol n cols = some c →
      lookupCol n (selectCols cols names) = some c := by
  intro names
  induction names with
  | nil => intro n c h _; simp at h
  | cons m ms ih =>
      intro n c hn hc
      by_cases hm : m = n
      · subst hm
        simp [selectCols, hc, lookupCol]
      · have hn' : n ∈ ms := (List.mem_cons.1 hn).resolve_left (fun h => hm h.symm)
        rcases hlm : lookupCol m cols with _ | cm
        · simp only [selectCols, hlm]
          exact ih n c hn' hc
        · simp only [selectCols, hlm, lookupCol]
          rw [if_neg hm]
          exact ih n c hn' hc

lemma lookupCol_map_fill (md : List (String × Value)) (n : String) :
    ∀ l : List (String × Col),
      lookupCol n (l.map (fun nc => (nc.1, fillCol md nc.1 nc.2)))
        = (lookupCol n l).map (fillCol md n) := by
  intro l
  induction l with
  | nil => rfl
  | cons p ps ih =>
      by_cases hp : p.1 = n
      · simp [lookupCol, hp]
      · simp [lookupCol, hp, ih]

lemma fillCol_scalar_of_default (md : List (String × Value)) (n : String) (v : Value)
    (k : Nat) :
    fillCol md n (scalarCol k (some v)) = scalarCol k (some v) := by
  have h : hasNA (scalarCol k (some v)) = false := by
    rw [hasNA, List.any_eq_false]
    intro x hx
    rw [List.eq_of_mem_replicate hx]
    simp
  rw [fillCol, if_neg (by simp [h])]

lemma fillCol_scalar_of_no_default (md : List (String × Value)) (n : String)
    (h : lookupVal md n = none) (k : Nat) :
    fillCol md n (scalarCol k none)
      = { dtype := DType.numeric, cells := List.replicate k (some (Value.num 0)) } := by
  cases k with
  | zero => simp [fillCol, hasNA, scalarCol, dtypeOfOpt]
  | succ k' =>
      have hna : hasNA (scalarCol (k' + 1) none) = true := by
        simp [hasNA, scalarCol, List.replicate_succ]
      rw [fillCol, if_pos hna, h]
      simp [scalarCol, dtypeOfOpt, Col.fillna, List.map_replicate]

lemma fillna_all_isSome (c : Col) (v : Value) :
    ((c.fillna v).cells).all Option.isSome = true := by
  rw [List.all_eq_true]
  intro x hx
  simp only [Col.fillna, List.mem_map] at hx
  obtain ⟨cell, _, hcell⟩ := hx
  rw [← hcell]
  rfl

lemma fillCol_all_isSome (md : List (String × Value)) (n : String) (c : Col) :
    ((fillCol md n c).cells).all Option.isSome = true := by
  by_cases h : hasNA c = true
  · rw [fillCol, if_pos h]
    rcases lookupVal md n with _ | v
    · rcases c.dtype with _ | _
      · exact fillna_all_isSome c (Value.num 0)
      · exact fillna_all_isSome c (Value.str "")
    · exact fillna_all_isSome c v
  · rw [fillCol, if_neg h]
    have hf : hasNA c = false := Bool.not_eq_true _ ▸ eq_false_of_ne_true h
    rw [hasNA, List.any_eq_false] at hf
    rw [List.all_eq_true]
    intro x hx
    have := hf x hx
    cases x with
    | none => simp at this
    | some w => rfl

lemma columns_fillMissing (md : List (String × Value)) (df : DataFrame) :
    (fillMissing md df).columns = df.columns := by
  simp only [fillMissing, DataFrame.columns, List.map_map]
  exact List.map_congr_left (fun a _ => rfl)

lemma mem_columns_of_lookupCol (n : String) (l : List (String × Col)) (c : Col)
    (h : lookupCol n l = some c) : n ∈ l.map Prod.fst := by
  by_contra hcon
  rw [lookupCol_eq_none_of_not_mem n l hcon] at h
  exact Option.noConfusion h

lemma prepare_snd_columns (df : DataFrame) (feats : List String)
    (metadata : Option Metadata) :
    ((prepare_input_dataframe df feats metadata).2).columns = feats := by
  have hmem : ∀ n ∈ feats,
      n ∈ (addMissingColumns (metaDefaultsOf metadata) df feats).cols.map Prod.fst :=
    fun n hn => mem_columns_addMissingColumns _ _ df n (Or.inl hn)
  simp only [prepare_input_dataframe]
  rw [columns_fillMissing]
  exact selectCols_map_fst _ feats hmem

lemma prepare_snd_lookup (df : DataFrame) (feats : List String)
    (metadata : Option Metadata) (n : String) (c : Col) (hn : n ∈ feats)
    (hc : lookupCol n (addMissingColumns (metaDefaultsOf metadata) df feats).cols = some c) :
    lookupCol n ((prepare_input_dataframe df feats metadata).2).cols
      = some (fillCol (metaDefaultsOf metadata) n c) := by
  simp only [prepare_input_dataframe, fillMissing, DataFrame.select]
  rw [lookupCol_map_fill]
  rw [lookupCol_selectCols _ feats n c hn hc]
  rfl

lemma prepare_snd_lookup_new (df : DataFrame) (feats : List String)
    (metadata : Option Metadata) (n : String) (hn : n ∈ feats)
    (hnot : n ∉ df.columns) :
    lookupCol n ((prepare_input_dataframe df feats metadata).2).cols
      = some (fillCol (metaDefaultsOf metadata) n
          (scalarCol df.nrows (lookupVal (metaDefaultsOf metadata) n))) :=
  prepare_snd_lookup df feats metadata n _ hn
    (lookupCol_addMissingColumns_of_new _ feats df n hn hnot)

lemma prepare_snd_lookup_of_mem (df : DataFrame) (feats : List String)
    (metadata : Option Metadata) (n : String) (c : Col) (hn : n ∈ feats)
    (hdf : lookupCol n df.cols = some c) :
    lookupCol n ((prepare_input_dataframe df feats metadata).2).cols
      = some (fillCol (metaDefaultsOf metadata) n c) := by
  have hmemdf : n ∈ df.columns := mem_columns_of_lookupCol n df.cols c hdf
  refine prepare_snd_lookup df feats metadata n c hn ?_
  rw [lookupCol_addMissingColumns_of_mem _ feats df n hmemdf]
  exact hdf

lemma prepare_snd_noNA (df : DataFrame) (feats : List String)
    (metadata : Option Metadata) :
    ∀ p ∈ ((prepare_input_dataframe df feats metadata).2).cols,
      (p.2.cells).all Option.isSome = true := by
  intro p hp
  simp only [prepare_input_dataframe, fillMissing] at hp
  rcases List.mem_map.1 hp with ⟨nc, _, hnc⟩
  rw [← hnc]
  exact fillCol_all_isSome _ _ _

lemma addMissingColumns_of_subset (md : List (String × Value)) (feats : List String) :
    ∀ df : DataFrame, (∀ c ∈ feats, c ∈ df.columns) →
      addMissingColumns md df feats = df := by
  induction feats with
  | nil => intro df _; rfl
  | cons c cs ih =>
      intro df h
      have hc : c ∈ df.columns := h c (List.mem_cons_self c cs)
      simp only [addMissingColumns, hc, if_pos]
      exact ih df (fun x hx => h x (List.mem_cons_of_mem c hx))

lemma selectCols_skip (a : String) (b : Col) (rest : List (String × Col)) :
    ∀ names : List String, (∀ n ∈ names, n ≠ a) →
      selectCols ((a, b) :: rest) names = selectCols rest names := by
  intro names
  induction names with
  | nil => intro _; rfl
  | cons m ms ih =>
      intro h
      have hm : m ≠ a := h m (List.mem_cons_self m ms)
      have hl : lookupCol m ((a, b) :: rest) = lookupCol m rest := by
        simp only [lookupCol]
        rw [if_neg (fun hh => hm hh.symm)]
      have ih' := ih (fun n hn => h n (List.mem_cons_of_mem m hn))
      simp only [selectCols, hl, ih']

lemma selectCols_self :
    ∀ (cols : List (String × Col)) (names : List String),
      cols.map Prod.fst = names → names.Nodup → selectCols cols names = cols := by
  intro cols
  induction cols with
  | nil =>
      intro names h _
      rw [← h]
      rfl
  | cons p ps ih =>
      intro names h hnd
      rw [← h] at hnd ⊢
      simp only [List.map_cons] at hnd ⊢
      have hlp : lookupCol p.1 (p :: ps) = some p.2 := by
        simp [lookupCol]
      simp only [selectCols, hlp]
      have hne : ∀ n ∈ ps.map Prod.fst, n ≠ p.1 := by
        intro n hn hEq
        exact (List.nodup_cons.1 hnd).1 (hEq ▸ hn)
      rcases p with ⟨a, b⟩
      rw [selectCols_skip a b ps _ hne]
      rw [ih (ps.map Prod.fst) rfl (List.nodup_cons.1 hnd).2]

lemma any_isNone_eq_false_of_all_isSome (l : List (Option Value))
    (h : l.all Option.isSome = true) : l.any Option.isNone = false := by
  rw [List.any_eq_false]
  intro x hx
  have hs := (List.all_eq_true.1 h) x hx
  cases x with
  | none => simp at hs
  | some v => simp

lemma fillMissing_of_noNA (md : List (String × Value)) (df : DataFrame)
    (h : ∀ p ∈ df.cols, (p.2.cells).all Option.isSome = true) :
    fillMissing md df = df := by
  rcases df with ⟨cols, index⟩
  simp only [fillMissing, DataFrame.mk.injEq, and_true]
  have hfun : ∀ p ∈ cols, (p.1, fillCol md p.1 p.2) = p := by
    intro p hp
    have hna : hasNA p.2 = false :=
      any_isNone_eq_false_of_all_isSome _ (h p hp)
    rw [fillCol, if_neg (by simp [hna])]
  rw [List.map_congr_left hfun]
  exact List.map_id' cols

lemma prepare_fixed (df : DataFrame) (feats : List String) (metadata : Option Metadata)
    (hnd : feats.Nodup) (hcols : df.columns = feats)
    (hNoNA : ∀ p ∈ df.cols, (p.2.cells).all Option.isSome = true) :
    (prepare_input_dataframe df feats metadata).2 = df := by
  have hadd : addMissingColumns (metaDefaultsOf metadata) df feats = df :=
    addMissingColumns_of_subset _ feats df (fun c hc => hcols ▸ hc)
  simp only [prepare_input_dataframe, hadd]
  have hsel : df.select feats = df := by
    simp only [DataFrame.select]
    rw [selectCols_self df.cols feats hcols hnd]
  rw [hsel]
  exact fillMissing_of_noNA (metaDefaultsOf metadata) df hNoNA

lemma columns_addMissingColumns (md : List (String × Value)) :
    ∀ (feats : List String) (df : DataFrame), feats.Nodup →
      (addMissingColumns md df feats).columns
        = df.columns ++ feats.filter (fun c => decide (c ∉ df.columns)) := by
  intro feats
  induction feats with
  | nil => intro df _; simp [addMissingColumns]
  | cons c cs ih =>
      intro df hnd
      by_cases hc : c ∈ df.columns
      · simp only [addMissingColumns, hc, if_pos]
        rw [ih df (List.nodup_cons.1 hnd).2]
        congr 1
        rw [List.filter_cons]
        rw [if_neg (by simp [hc])]
      · simp only [addMissingColumns, hc, if_neg, not_false_iff]
        rw [ih _ (List.nodup_cons.1 hnd).2]
        have hca : (df.appendCol c (scalarCol df.nrows (lookupVal md c))).columns
            = df.columns ++ [c] := by
          simp [DataFrame.columns, DataFrame.appendCol]
        rw [hca, List.append_assoc]
        congr 1
        have hcnotin : c ∉ cs := (List.nodup_cons.1 hnd).1
        have hfeq : cs.filter (fun x => decide (x ∉ (df.columns ++ [c])))
            = cs.filter (fun x => decide (x ∉ df.columns)) := by
          apply List.filter_congr
          intro x hx
          have hxc : x ≠ c := fun hEq => hcnotin (hEq ▸ hx)
          simp [List.mem_append, hxc]
        rw [List.filter_cons]
        rw [if_pos (by simp [hc])]
        rw [hfeq]
        rfl

/-- Claim C1: for every input table, duplicate-free feature list and optional
metadata, the returned table's columns are exactly the feature list in order
(every other input column is dropped); a feature absent from the input becomes
a column of its metadata default when one exists, and otherwise a NaN column
that the final fill turns into zeros (NaN columns have numeric dtype); a
feature present in the input goes through the final fill step (metadata
default if any, else 0 for numeric dtype and the empty string otherwise); and
the returned table contains no missing values. -/
theorem C1_prepare_input_dataframe_aligns (df : DataFrame) (feats : List String)
    (metadata : Option Metadata) (hnd : feats.Nodup) :
    ((prepare_input_dataframe df feats metadata).2).columns = feats
    ∧ (∀ n ∈ feats, n ∉ df.columns → ∀ v,
        lookupVal (metaDefaultsOf metadata) n = some v →
        lookupCol n ((prepare_input_dataframe df feats metadata).2).cols
          = some { dtype := dtypeOfOpt (some v),
                   cells := List.replicate df.nrows (some v) })
    ∧ (∀ n ∈ feats, n ∉ df.columns →
        lookupVal (metaDefaultsOf metadata) n = none →
        lookupCol n ((prepare_input_dataframe df feats metadata).2).cols
          = some { dtype := DType.numeric,
                   cells := List.replicate df.nrows (some (Value.num 0)) })
    ∧ (∀ n ∈ feats, ∀ c, lookupCol n df.cols = some c →
        lookupCol n ((prepare_input_dataframe df feats metadata).2).cols
          = some (fillCol (metaDefaultsOf metadata) n c))
    ∧ (∀ p ∈ ((prepare_input_dataframe df feats metadata).2).cols,
        (p.2.cells).all Option.isSome = true) := by
  refine ⟨prepare_snd_columns df feats metadata, ?_, ?_, ?_,
    prepare_snd_noNA df feats metadata⟩
  · intro n hn hnot v hv
    rw [prepare_snd_lookup_new df feats metadata n hn hnot, hv,
      fillCol_scalar_of_default]
    rfl
  · intro n hn hnot hv
    rw [prepare_snd_lookup_new df feats metadata n hn hnot, hv,
      fillCol_scalar_of_no_default _ _ hv]
  · intro n hn c hc
    exact prepare_snd_lookup_of_mem df feats metadata n c hn hc

/-- Witness for C1 at a concrete table, feature list and metadata. -/
theorem C1_witness :
    ((prepare_input_dataframe
        { cols := [("x", { dtype := DType.numeric, cells := [some (Value.num 7)] }),
                   ("b", { dtype := DType.numeric, cells := [none] })],
          index := [0] }
        ["a", "b"]
        (some { feature_defaults := some [("a", Value.num 123)],
                defaults := none })).2).columns = ["a", "b"] :=
  (C1_prepare_input_dataframe_aligns _ _ _ (by decide)).1

/-- Claim C9 counterexample: at a concrete input, the caller-visible mutated
table keeps its original column "x" in front of the appended feature column,
so its columns are not exactly the feature list, and a missing value remains
in it. -/
theorem C9_counterexample :
    ((prepare_input_dataframe
        { cols := [("x", { dtype := DType.numeric, cells := [none] })], index := [0] }
        ["a"] none).1).columns = ["x", "a"]
    ∧ ((prepare_input_dataframe
        { cols := [("x", { dtype := DType.numeric, cells := [none] })], index := [0] }
        ["a"] none).1).columns ≠ ["a"]
    ∧ (((prepare_input_dataframe
        { cols := [("x", { dtype := DType.numeric, cells := [none] })], index := [0] }
        ["a"] none).1).cols.any (fun p => hasNA p.2)) = true :=
  ⟨by decide, by decide, by decide⟩

/-- Claim C9 amended: prepare_input_dataframe mutates the caller's table only
by appending, after the existing columns, the feature columns absent from it,
each filled with the metadata default for its name when one exists and with
the missing-value sentinel otherwise; the original columns, their contents and
the index survive unchanged.  Restriction to the feature list, reordering and
missing-value filling happen only in the returned copy, so the caller's table
generally keeps extra columns and missing values. -/
theorem C9_amended_mutation (df : DataFrame) (feats : List String)
    (metadata : Option Metadata) (hnd : feats.Nodup) :
    ((prepare_input_dataframe df feats metadata).1).columns
        = df.columns ++ feats.filter (fun c => decide (c ∉ df.columns))
    ∧ (∀ n ∈ df.columns,
        lookupCol n ((prepare_input_dataframe df feats metadata).1).cols
          = lookupCol n df.cols)
    ∧ (∀ n ∈ feats, n ∉ df.columns →
        lookupCol n ((prepare_input_dataframe df feats metadata).1).cols
          = some (scalarCol df.nrows (lookupVal (metaDefaultsOf metadata) n)))
    ∧ ((prepare_input_dataframe df feats metadata).1).index = df.index := by
  refine ⟨columns_addMissingColumns _ feats df hnd, ?_, ?_,
    addMissingColumns_index _ feats df⟩
  · intro n hn
    exact lookupCol_addMissingColumns_of_mem _ feats df n hn
  · intro n hn hnot
    exact lookupCol_addMissingColumns_of_new _ feats df n hn hnot

/-- Witness for the amended C9 at a concrete table and feature list. -/
theorem C9_amended_witness :
    ((prepare_input_dataframe
        { cols := [("x", { dtype := DType.numeric, cells := [some (Value.num 1)] })],
          index := [0] }
        ["a", "x"] none).1).columns
      = ({ cols := [("x", { dtype := DType.numeric, cells := [some (Value.num 1)] })],
           index := [0] } : DataFrame).columns
        ++ ["a", "x"].filter (fun c => decide (c ∉
              ({ cols := [("x", { dtype := DType.numeric, cells := [some (Value.num 1)] })],
                 index := [0] } : DataFrame).columns)) :=
  (C9_amended_mutation _ _ none (by decide)).1

/-- Claim C10: alignment is idempotent: a table whose columns already equal the
duplicate-free feature list and which has no missing values is returned
unchanged, and applying prepare_input_dataframe to its own result is the same
as applying it once. -/
theorem C10_prepare_input_dataframe_idempotent (df : DataFrame) (feats : List String)
    (metadata : Option Metadata) (hnd : feats.Nodup) :
    ((df.columns = feats ∧ ∀ p ∈ df.cols, (p.2.cells).all Option.isSome = true) →
        (prepare_input_dataframe df feats metadata).2 = df)
    ∧ (prepare_input_dataframe
          (prepare_input_dataframe df feats metadata).2 feats metadata).2
        = (prepare_input_dataframe df feats metadata).2 := by
  constructor
  · intro h
    exact prepare_fixed df feats metadata hnd h.1 h.2
  · exact prepare_fixed _ feats metadata hnd (prepare_snd_columns df feats metadata)
      (prepare_snd_noNA df feats metadata)

/-- Witness for C10 at a concrete table and feature list. -/
theorem C10_witness :
    (prepare_input_dataframe
        (prepare_input_dataframe
          { cols := [("x", { dtype := DType.numeric, cells := [none] })], index := [0] }
          ["a", "x"] none).2 ["a", "x"] none).2
      = (prepare_input_dataframe
          { cols := [("x", { dtype := DType.numeric, cells := [none] })], index := [0] }
          ["a", "x"] none).2 :=
  (C10_prepare_input_dataframe_idempotent _ _ none (by decide)).2

/-- load_pickle_or_joblib.  The two deserialization attempts and the
file-existence check are oracle inputs (the python code delegates them to
os.path.exists, joblib.load and pickle.load).  A joblib failure is discarded
by `except Exception: pass`; only the pickle exception `e` is interpolated
into the final message. -/
def load_pickle_or_joblib {α : Type} (path : String) (fileExists : Bool)
    (joblibLoad : Except String α) (pickleLoad : Except String α) :
    Except String α :=
  if fileExists then
    match joblibLoad with
    | Except.ok a => Except.ok a
    | Except.error _ =>
        match pickleLoad with
        | Except.ok a => Except.ok a
        | Except.error e =>
            Except.error ("Failed to load " ++ path ++ " with joblib or pickle: " ++ e)
  else Except.error ("File not found: " ++ path)

/-- Claim C2 counterexample: when both attempts fail, the raised message
contains the pickle cause but not the joblib cause "joblib boom", so the
message does not concatenate both underlying causes. -/
theorem C2_counterexample :
    load_pickle_or_joblib "model.pkl" true
        (Except.error "joblib boom" : Except String Nat) (Except.error "pickle boom")
      = Except.error "Failed to load model.pkl with joblib or pickle: pickle boom"
    ∧ ¬ ("joblib boom".toList <:+:
          "Failed to load model.pkl with joblib or pickle: pickle boom".toList)
    ∧ ("pickle boom".toList <:+:
          "Failed to load model.pkl with joblib or pickle: pickle boom".toList) :=
  ⟨rfl, by decide, by decide⟩

/-- Claim C2 amended: for an existing file, the error is raised only after both
the joblib attempt and the pickle attempt have failed, and its message
contains the pickle failure cause; the joblib failure cause is discarded. -/
theorem C2_amended_load_error (α : Type) (path : String)
    (joblibLoad pickleLoad : Except String α) :
    (∀ a, joblibLoad = Except.ok a →
        load_pickle_or_joblib path true joblibLoad pickleLoad = Except.ok a)
    ∧ (∀ e a, joblibLoad = Except.error e → pickleLoad = Except.ok a →
        load_pickle_or_joblib path true joblibLoad pickleLoad = Except.ok a)
    ∧ (∀ e e2, joblibLoad = Except.error e → pickleLoad = Except.error e2 →
        load_pickle_or_joblib path true joblibLoad pickleLoad
          = Except.error ("Failed to load " ++ path ++ " with joblib or pickle: " ++ e2)
        ∧ e2.toList <:+:
            ("Failed to load " ++ path ++ " with joblib or pickle: " ++ e2).toList) := by
  refine ⟨?_, ?_, ?_⟩
  · intro a h
    rw [h]
    rfl
  · intro e a h1 h2
    rw [h1, h2]
    rfl
  · intro e e2 h1 h2
    rw [h1, h2]
    refine ⟨rfl, ?_⟩
    exact ⟨("Failed to load " ++ path ++ " with joblib or pickle: ").toList, [],
      by simp [String.toList]⟩

/-- Witness for the amended C2 at concrete loader outcomes. -/
theorem C2_amended_witness :
    load_pickle_or_joblib "m.pkl" true (Except.error "jb" : Except String Nat)
        (Except.error "pk")
      = Except.error ("Failed to load " ++ "m.pkl" ++ " with joblib or pickle: " ++ "pk")
    ∧ "pk".toList <:+:
        ("Failed to load " ++ "m.pkl" ++ " with joblib or pickle: " ++ "pk").toList :=
  (C2_amended_load_error Nat "m.pkl" _ _).2.2 "jb" "pk" rfl rfl

/-- The value matrix df.values: one row per index position, entries in column
order; `none` cells are NaN. -/
def DataFrame.values (df : DataFrame) : List (List (Option Value)) :=
  (List.range df.nrows).map (fun i => df.cols.map (fun nc => nc.2.cells.getD i none))

/-- An opaque preprocessing object, modelled by its transform behaviour on the
labelled table and on the bare value matrix — the two call shapes the adapter
tries in turn. -/
structure Preprocessor where
  transformDf : DataFrame → Except String (List (List (Option Value)))
  transformValues : List (List (Option Value)) → Except String (List (List (Option Value)))

/-- apply_preprocessor: call transform on the table as-is; on failure retry
once on df.values; raise a combined message only when both calls fail. -/
def apply_preprocessor (p : Preprocessor) (df : DataFrame) :
    Except String (List (List (Option Value))) :=
  match p.transformDf df with
  | Except.ok r => Except.ok r
  | Except.error e =>
      match p.transformValues df.values with
      | Except.ok r => Except.ok r
      | Except.error e2 =>
          Except.error ("Preprocessor.transform failed: " ++ e
            ++ "; fallback failed: " ++ e2)

/-- Claim C6: apply_preprocessor returns the first transform's result on
success; on any failure it retries exactly once with the bare value matrix and
returns that result on success; it raises only when both call shapes fail, and
the raised message names both failure causes. -/
theorem C6_apply_preprocessor_fallback (p : Preprocessor) (df : DataFrame) :
    (∀ r, p.transformDf df = Except.ok r → apply_preprocessor p df = Except.ok r)
    ∧ (∀ e r, p.transformDf df = Except.error e →
        p.transformValues df.values = Except.ok r →
        apply_preprocessor p df = Except.ok r)
    ∧ (∀ e e2, p.transformDf df = Except.error e →
        p.transformValues df.values = Except.error e2 →
        apply_preprocessor p df
          = Except.error ("Preprocessor.transform failed: " ++ e
              ++ "; fallback failed: " ++ e2)
        ∧ e.toList <:+: ("Preprocessor.transform failed: " ++ e
              ++ "; fallback failed: " ++ e2).toList
        ∧ e2.toList <:+: ("Preprocessor.transform failed: " ++ e
              ++ "; fallback failed: " ++ e2).toList) := by
  refine ⟨?_, ?_, ?_⟩
  · intro r h
    rw [apply_preprocessor, h]
  · intro e r h1 h2
    rw [apply_preprocessor, h1, h2]
  · intro e e2 h1 h2
    rw [apply_preprocessor, h1, h2]
    refine ⟨rfl, ?_, ?_⟩
    · have : ("Preprocessor.transform failed: " ++ e
          ++ "; fallback failed: " ++ e2).toList
          = "Preprocessor.transform failed: ".toList
            ++ (e.toList ++ ("; fallback failed: ".toList ++ e2.toList)) := by
        simp [String.toList]
      rw [this]
      exact List.infix_append' _ _ _
    · exact ⟨("Preprocessor.transform failed: " ++ e ++ "; fallback failed: ").toList,
        [], by simp [String.toList]⟩

/-- Witness for C6 at a concrete preprocessor whose both call shapes fail. -/
theorem C6_witness :
    apply_preprocessor
        { transformDf := fun _ => Except.error "bad frame",
          transformValues := fun _ => Except.error "bad matrix" }
        { cols := [], index := [] }
      = Except.error ("Preprocessor.transform failed: " ++ "bad frame"
          ++ "; fallback failed: " ++ "bad matrix")
    ∧ "bad frame".toList <:+: ("Preprocessor.transform failed: " ++ "bad frame"
          ++ "; fallback failed: " ++ "bad matrix").toList
    ∧ "bad matrix".toList <:+: ("Preprocessor.transform failed: " ++ "bad frame"
          ++ "; fallback failed: " ++ "bad matrix").toList :=
  (C6_apply_preprocessor_fallback
      { transformDf := fun _ => Except.error "bad frame",
        transformValues := fun _ => Except.error "bad matrix" }
      { cols := [], index := [] }).2.2 "bad frame" "bad matrix" rfl rfl

/-- A numpy float array as the prediction interfaces produce it: either
one-dimensional, or two-dimensional with an explicit column count (shape[1]). -/
inductive NDArray where
  | d1 (v : List ℚ)
  | d2 (ncols : Nat) (rows : List (List ℚ))
deriving DecidableEq

/-- Helper for np.argmax over one row: running first-maximum index. -/
def argmaxFrom (best : Nat) (bv : ℚ) (i : Nat) : List ℚ → Nat
  | [] => best
  | x :: xs => if bv < x then argmaxFrom i x (i + 1) xs else argmaxFrom best bv (i + 1) xs

/-- np.argmax over one row: index of the first occurrence of the maximum. -/
def argmaxRow : List ℚ → Nat
  | [] => 0
  | x :: xs => argmaxFrom 0 x 1 xs

/-- An opaque model object, modelled by its capabilities: the optional
predict_proba and predict attributes, whether it is an xgboost Booster, and
its raw Booster prediction.  The xgboost import is assumed to succeed and the
model operations are modelled as total functions. -/
structure PyModel where
  predict_proba? : Option (List (List (Option Value)) → NDArray)
  predict? : Option (List (List (Option Value)) → List ℚ)
  isBooster : Bool
  boosterPredict : List (List (Option Value)) → NDArray

/-- predict_with_model: dispatch on model capability; a one-dimensional raw
Booster prediction p is expanded to the two-column matrix [1-p, p] and labels
are the row-wise argmax.  A model exposing predict_proba but no predict makes
the python code fail with an AttributeError, modelled by the error value
below. -/
def predict_with_model (m : PyModel) (X : List (List (Option Value))) :
    Except String (List ℚ × Option NDArray) :=
  match m.predict_proba? with
  | some pp =>
      match m.predict? with
      | some pr => Except.ok (pr X, some (pp X))
      | none => Except.error "AttributeError: predict"
  | none =>
      match m.predict? with
      | some pr => Except.ok (pr X, none)
      | none =>
          if m.isBooster then
            match m.boosterPredict X with
            | NDArray.d1 p =>
                Except.ok ((p.map (fun x => [1 - x, x])).map
                    (fun r => (argmaxRow r : ℚ)),
                  some (NDArray.d2 2 (p.map (fun x => [1 - x, x]))))
            | NDArray.d2 k rows =>
                Except.ok (rows.map (fun r => (argmaxRow r : ℚ)),
                  some (NDArray.d2 k rows))
          else
            Except.error "Model does not have a supported predict / predict_proba interface."

/-- Claim C3: dispatch priority: a model with predict_proba gets both
predict_proba and predict called and both results returned, even when the
label-only branch would also apply; a model with only predict returns labels
and null probabilities; the raw-Booster fields are consulted only when both
attributes are absent (changing them does not change the result otherwise). -/
theorem C3_predict_with_model_priority (m : PyModel) (X : List (List (Option Value))) :
    (∀ pp pr, m.predict_proba? = some pp → m.predict? = some pr →
        predict_with_model m X = Except.ok (pr X, some (pp X)))
    ∧ (∀ pr, m.predict_proba? = none → m.predict? = some pr →
        predict_with_model m X = Except.ok (pr X, none))
    ∧ (∀ b f, (m.predict_proba?.isSome ∨ m.predict?.isSome) →
        predict_with_model
            { predict_proba? := m.predict_proba?, predict? := m.predict?,
              isBooster := b, boosterPredict := f } X
          = predict_with_model m X) := by
  refine ⟨?_, ?_, ?_⟩
  · intro pp pr h1 h2
    simp [predict_with_model, h1, h2]
  · intro pr h1 h2
    simp [predict_with_model, h1, h2]
  · intro b f h
    rcases hpp : m.predict_proba? with _ | pp
    · rcases hpr : m.predict? with _ | pr
      · rcases h with h | h
        · rw [hpp] at h
          simp at h
        · rw [hpr] at h
          simp at h
      · simp [predict_with_model, hpp, hpr]
    · rcases hpr : m.predict? with _ | pr <;> simp [predict_with_model, hpp, hpr]

/-- Witness for C3 at a concrete probability-capable model. -/
theorem C3_witness :
    predict_with_model
        { predict_proba? := some (fun _ => NDArray.d2 2 [[1/4, 3/4]]),
          predict? := some (fun _ => [1]),
          isBooster := false,
          boosterPredict := fun _ => NDArray.d1 [] }
        [[some (Value.num 0)]]
      = Except.ok (([1] : List ℚ), some (NDArray.d2 2 [[1/4, 3/4]])) :=
  (C3_predict_with_model_priority _ _).1 _ _ rfl rfl

/-- Claim C4: for a raw Booster model (no predict_proba, no predict), a
one-dimensional raw prediction p with entries in [0,1] yields the probability
matrix [[1-p, p] per row] and labels equal to the row-wise argmax of that
matrix; a two-dimensional raw prediction yields itself as the probability
matrix and labels equal to its row-wise argmax. -/
theorem C4_predict_with_model_booster (m : PyModel) (X : List (List (Option Value)))
    (hpp : m.predict_proba? = none) (hpr : m.predict? = none)
    (hb : m.isBooster = true) :
    (∀ p, m.boosterPredict X = NDArray.d1 p → (∀ x ∈ p, 0 ≤ x ∧ x ≤ 1) →
        predict_with_model m X
          = Except.ok ((p.map (fun x => [1 - x, x])).map
              (fun r => (argmaxRow r : ℚ)),
            some (NDArray.d2 2 (p.map (fun x => [1 - x, x])))))
    ∧ (∀ k rows, m.boosterPredict X = NDArray.d2 k rows →
        predict_with_model m X
          = Except.ok (rows.map (fun r => (argmaxRow r : ℚ)),
            some (NDArray.d2 k rows))) := by
  constructor
  · intro p hp _
    simp [predict_with_model, hpp, hpr, hb, hp]
  · intro k rows hp
    simp [predict_with_model, hpp, hpr, hb, hp]

/-- Witness for C4 at a concrete Booster with a binary raw prediction. -/
theorem C4_witness :
    predict_with_model
        { predict_proba? := none, predict? := none, isBooster := true,
          boosterPredict := fun _ => NDArray.d1 [3/4, 1/4] }
        [[some (Value.num 0)], [some (Value.num 1)]]
      = Except.ok (([1, 0] : List ℚ),
          some (NDArray.d2 2 [[1/4, 3/4], [3/4, 1/4]])) := by
  have h := (C4_predict_with_model_booster
      { predict_proba? := none, predict? := none, isBooster := true,
        boosterPredict := fun _ => NDArray.d1 [3/4, 1/4] }
      [[some (Value.num 0)], [some (Value.num 1)]] rfl rfl rfl).1
      [3/4, 1/4] rfl ?_
  · rw [h]
    norm_num [argmaxRow, argmaxFrom]
  · intro x hx
    rcases List.mem_cons.1 hx with h1 | hx2
    · subst h1
      constructor <;> norm_num
    · rcases List.mem_cons.1 hx2 with h1 | h1
      · subst h1
        constructor <;> norm_num
      · simp at h1

/-- Claim C5: predict_with_model raises the "no supported prediction
interface" error precisely when the model has neither predict_proba nor
predict and is not a raw Booster. -/
theorem C5_no_supported_interface_iff (m : PyModel) (X : List (List (Option Value))) :
    predict_with_model m X
        = Except.error "Model does not have a supported predict / predict_proba interface."
      ↔ (m.predict_proba? = none ∧ m.predict? = none ∧ m.isBooster = false) := by
  constructor
  · intro h
    refine ⟨?_, ?_, ?_⟩ <;> by_contra hcon
    · rcases Option.ne_none_iff_exists'.1 hcon with ⟨pp, hpp⟩
      rcases hpr : m.predict? with _ | pr
      · rw [predict_with_model, hpp, hpr] at h
        have h2 : ("AttributeError: predict" : String)
            = "Model does not have a supported predict / predict_proba interface." := by
          injection h
        exact absurd h2 (by decide)
      · rw [predict_with_model, hpp, hpr] at h
        simp at h
    · rcases Option.ne_none_iff_exists'.1 hcon with ⟨pr, hpr⟩
      rcases hpp : m.predict_proba? with _ | pp <;> rw [predict_with_model, hpp, hpr] at h
      · simp at h
      · simp at h
    · have hb : m.isBooster = true := by
        cases hbv : m.isBooster
        · exact absurd hbv hcon
        · rfl
      rcases hpp : m.predict_proba? with _ | pp
      · rcases hpr : m.predict? with _ | pr
        · rw [predict_with_model, hpp, hpr, hb] at h
          cases hbp : m.boosterPredict X <;> rw [hbp] at h <;> simp at h
        · rw [predict_with_model, hpp, hpr] at h
          simp at h
      · rcases hpr : m.predict? with _ | pr <;> rw [predict_with_model, hpp, hpr] at h
        · have h2 : ("AttributeError: predict" : String)
              = "Model does not have a supported predict / predict_proba interface." := by
            injection h
          exact absurd h2 (by decide)
        · simp at h
  · intro h
    rw [predict_with_model, h.1, h.2.1, h.2.2]
    rfl

/-- Witness for C5 at a concrete capability-free model. -/
theorem C5_witness :
    predict_with_model
        { predict_proba? := none, predict? := none, isBooster := false,
          boosterPredict := fun _ => NDArray.d1 [] }
        []
      = Except.error "Model does not have a supported predict / predict_proba interface." :=
  (C5_no_supported_interface_iff _ _).mpr ⟨rfl, rfl, rfl⟩

/-- A cell of the result table: a scalar or a probability vector (one row of
the probability array stored whole in the single proba column). -/
inductive OutValue where
  | q (x : ℚ)
  | vec (v : List ℚ)
deriving DecidableEq

/-- The result table: named value columns over the inherited input index. -/
structure OutFrame where
  cols : List (String × List OutValue)
  index : List Nat
deriving DecidableEq

/-- pandas out[name] = values: appending a fresh column raises when the value
list length differs from the index length. -/
def OutFrame.setCol (f : OutFrame) (name : String) (vals : List OutValue) :
    Except String OutFrame :=
  if vals.length = f.index.length then
    Except.ok { f with cols := f.cols ++ [(name, vals)] }
  else Except.error "Length of values does not match length of index"

/-- proba[:, i]: the i-th column of a rectangular row-major matrix. -/
def colOf (rows : List (List ℚ)) (i : Nat) : List ℚ :=
  rows.map (fun r => r.getD i 0)

/-- The probability part of the result-assembly block of run_predictions:
when probabilities exist, expand a two-dimensional matrix with at most 10
columns into one proba_class_i column per class, and otherwise store
list(proba) in a single proba column (row slices for a 2-d array, scalars for
a 1-d array). -/
def attachProba (out : OutFrame) : Option NDArray → Except String OutFrame
  | none => Except.ok out
  | some (NDArray.d1 v) => out.setCol "proba" (v.map OutValue.q)
  | some (NDArray.d2 k rows) =>
      if k ≤ 10 then
        (List.range k).foldlM
          (fun o i => o.setCol ("proba_class_" ++ toString i)
            ((colOf rows i).map OutValue.q)) out
      else out.setCol "proba" (rows.map OutValue.vec)

/-- The result-assembly block of run_predictions (the python lines building
`out`): start from an empty table over the original index, always set the
prediction column, then attach the probability columns. -/
def buildOutput (index : List Nat) (preds : List ℚ) (proba : Option NDArray) :
    Except String OutFrame :=
  match OutFrame.setCol { cols := [], index := index } "prediction"
      (preds.map OutValue.q) with
  | Except.error e => Except.error e
  | Except.ok out => attachProba out proba

/-- The prediction-then-assembly stage of run_predictions applied to the
preprocessed features X. -/
def predictAndAssemble (model : PyModel) (idx : List Nat)
    (X : List (List (Option Value))) : Except String OutFrame :=
  match predict_with_model model X with
  | Except.error e => Except.error e
  | Except.ok (preds, proba) => buildOutput idx preds proba

/-- Propagation of a preprocessing failure into run_predictions (a python
exception escapes the call; a success feeds X into prediction). -/
def dispatchX (model : PyModel) (idx : List Nat)
    (r : Except String (List (List (Option Value)))) : Except String OutFrame :=
  match r with
  | Except.error e => Except.error e
  | Except.ok X => predictAndAssemble model idx X

/-- run_predictions, downstream of artifact loading and CSV parsing (file I/O
is outside the embedding): align the parsed table, apply the optional
preprocessor (else take df.values), predict, and assemble the result table
over the original index.  The python function additionally writes the result
table to a CSV when requested and returns a positional preview join; the
embedding returns the result table itself. -/
def run_predictions (model : PyModel) (feats : List String)
    (preprocessor : Option Preprocessor) (metadata : Option Metadata)
    (df : DataFrame) : Except String OutFrame :=
  dispatchX model df.index
    (match preprocessor with
     | some p => apply_preprocessor p (prepare_input_dataframe df feats metadata).2
     | none => Except.ok ((prepare_input_dataframe df feats metadata).2).values)

lemma setCol_ok (f g : OutFrame) (name : String) (vals : List OutValue)
    (h : f.setCol name vals = Except.ok g) :
    g.cols = f.cols ++ [(name, vals)] ∧ g.index = f.index
      ∧ vals.length = f.index.length := by
  by_cases hl : vals.length = f.index.length
  · rw [OutFrame.setCol, if_pos hl] at h
    have hg : ({ f with cols := f.cols ++ [(name, vals)] } : OutFrame) = g :=
      Except.ok.inj h
    rw [← hg]
    exact ⟨rfl, rfl, hl⟩
  · rw [OutFrame.setCol, if_neg hl] at h
    exact Except.noConfusion h

lemma foldlM_setCol_ok (g : Nat → String × List OutValue) :
    ∀ (l : List Nat) (f : OutFrame),
      (∀ i ∈ l, (g i).2.length = f.index.length) →
      l.foldlM (fun o i => o.setCol (g i).1 (g i).2) f
        = Except.ok { cols := f.cols ++ l.map g, index := f.index } := by
  intro l
  induction l with
  | nil =>
      intro f _
      simp only [List.map_nil, List.append_nil, List.foldlM_nil]
      rfl
  | cons i is ih =>
      intro f h
      have hstep : f.setCol (g i).1 (g i).2
          = Except.ok { cols := f.cols ++ [g i], index := f.index } := by
        rw [OutFrame.setCol, if_pos (h i (List.mem_cons_self i is))]
      have hrec := ih { cols := f.cols ++ [g i], index := f.index }
        (fun j hj => h j (List.mem_cons_of_mem i hj))
      calc (i :: is).foldlM (fun o j => o.setCol (g j).1 (g j).2) f
          = is.foldlM (fun o j => o.setCol (g j).1 (g j).2)
              { cols := f.cols ++ [g i], index := f.index } := by
            rw [List.foldlM_cons, hstep]
            rfl
        _ = Except.ok { cols := (f.cols ++ [g i]) ++ is.map g, index := f.index } := hrec
        _ = Except.ok { cols := f.cols ++ (i :: is).map g, index := f.index } := by
            simp [List.append_assoc]

lemma foldlM_setCol_inv (g : Nat → String × List OutValue) :
    ∀ (l : List Nat) (f out : OutFrame),
      l.foldlM (fun o i => o.setCol (g i).1 (g i).2) f = Except.ok out →
      out.index = f.index
        ∧ ((∀ p ∈ f.cols, p.2.length = f.index.length) →
            ∀ p ∈ out.cols, p.2.length = f.index.length) := by
  intro l
  induction l with
  | nil =>
      intro f out h
      have h2 : Except.ok f = Except.ok out := h
      obtain rfl : f = out := Except.ok.inj h2
      exact ⟨rfl, fun hf => hf⟩
  | cons i is ih =>
      intro f out h
      rw [List.foldlM_cons] at h
      rcases hs : f.setCol (g i).1 (g i).2 with e | f1 <;> rw [hs] at h
      · have h2 : (Except.error e : Except String OutFrame) = Except.ok out := h
        exact Except.noConfusion h2
      · have h2 : is.foldlM (fun o j => o.setCol (g j).1 (g j).2) f1 = Except.ok out := h
        obtain ⟨hc, hi, hl⟩ := setCol_ok f f1 (g i).1 (g i).2 hs
        obtain ⟨hoi, hol⟩ := ih f1 out h2
        refine ⟨hoi.trans hi, ?_⟩
        intro hf p hp
        have hf1 : ∀ q ∈ f1.cols, q.2.length = f1.index.length := by
          intro q hq
          rw [hc] at hq
          rcases List.mem_append.1 hq with hq | hq
          · rw [hi]
            exact hf q hq
          · rw [List.mem_singleton.1 hq, hi]
            exact hl
        have hres := hol hf1 p hp
        rw [← hi]
        exact hres

lemma attachProba_ok_inv (out1 : OutFrame) (proba : Option NDArray) (out : OutFrame)
    (h : attachProba out1 proba = Except.ok out)
    (hall1 : ∀ p ∈ out1.cols, p.2.length = out1.index.length) :
    out.index = out1.index ∧ ∀ p ∈ out.cols, p.2.length = out1.index.length := by
  rcases proba with _ | nd
  · have h2 : Except.ok out1 = Except.ok out := h
    obtain rfl : out1 = out := Except.ok.inj h2
    exact ⟨rfl, hall1⟩
  · rcases nd with v | ⟨k, rows⟩
    · have h2 : out1.setCol "proba" (v.map OutValue.q) = Except.ok out := h
      obtain ⟨hc2, hi2, hl2⟩ := setCol_ok _ _ _ _ h2
      refine ⟨hi2, ?_⟩
      intro p hp
      rw [hc2] at hp
      rcases List.mem_append.1 hp with hp | hp
      · exact hall1 p hp
      · rw [List.mem_singleton.1 hp]
        exact hl2
    · have h2 : (if k ≤ 10 then
          (List.range k).foldlM
            (fun o i => o.setCol ("proba_class_" ++ toString i)
              ((colOf rows i).map OutValue.q)) out1
        else out1.setCol "proba" (rows.map OutValue.vec)) = Except.ok out := h
      by_cases hk : k ≤ 10
      · rw [if_pos hk] at h2
        have h3 := foldlM_setCol_inv
          (fun i => ("proba_class_" ++ toString i, (colOf rows i).map OutValue.q))
          (List.range k) out1 out h2
        exact ⟨h3.1, h3.2 hall1⟩
      · rw [if_neg hk] at h2
        obtain ⟨hc2, hi2, hl2⟩ := setCol_ok _ _ _ _ h2
        refine ⟨hi2, ?_⟩
        intro p hp
        rw [hc2] at hp
        rcases List.mem_append.1 hp with hp | hp
        · exact hall1 p hp
        · rw [List.mem_singleton.1 hp]
          exact hl2

lemma buildOutput_ok_inv (index : List Nat) (preds : List ℚ) (proba : Option NDArray)
    (out : OutFrame) (h : buildOutput index preds proba = Except.ok out) :
    out.index = index ∧ ∀ p ∈ out.cols, p.2.length = index.length := by
  rw [buildOutput] at h
  rcases hs : OutFrame.setCol { cols := [], index := index } "prediction"
      (preds.map OutValue.q) with e | out1 <;> rw [hs] at h
  · have h2 : (Except.error e : Except String OutFrame) = Except.ok out := h
    exact Except.noConfusion h2
  · obtain ⟨hc1, hi1, hl1⟩ := setCol_ok _ _ _ _ hs
    dsimp only at hc1 hi1 hl1
    have hall1 : ∀ p ∈ out1.cols, p.2.length = out1.index.length := by
      intro p hp
      rw [hc1] at hp
      rcases List.mem_append.1 hp with hp | hp
      · simp at hp
      · rw [List.mem_singleton.1 hp, hi1]
        exact hl1
    have h2 : attachProba out1 proba = Except.ok out := h
    obtain ⟨hoi, hol⟩ := attachProba_ok_inv out1 proba out h2 hall1
    rw [hi1] at hoi hol
    exact ⟨hoi, hol⟩

/-- Claim C7: the assembled result table always contains the prediction
column; a two-dimensional probability matrix with at most 10 columns is
expanded into one proba_class_i column per class i, holding proba[:, i]; a
wider two-dimensional matrix is stored in a single proba column holding one
row vector per input row (so a (3,12) matrix gives one length-3 proba column
of 12-element vectors); a one-dimensional probability array likewise goes to
a single proba column, as its scalar entries. -/
theorem C7_result_assembly (index : List Nat) (preds : List ℚ)
    (hp : preds.length = index.length) :
    (buildOutput index preds none
        = Except.ok { cols := [("prediction", preds.map OutValue.q)], index := index })
    ∧ (∀ v : List ℚ, v.length = index.length →
        buildOutput index preds (some (NDArray.d1 v))
          = Except.ok { cols := [("prediction", preds.map OutValue.q),
              ("proba", v.map OutValue.q)], index := index })
    ∧ (∀ (k : Nat) (rows : List (List ℚ)), rows.length = index.length → k ≤ 10 →
        buildOutput index preds (some (NDArray.d2 k rows))
          = Except.ok { cols := ("prediction", preds.map OutValue.q)
              :: (List.range k).map (fun i => ("proba_class_" ++ toString i,
                   (colOf rows i).map OutValue.q)), index := index })
    ∧ (∀ (k : Nat) (rows : List (List ℚ)), rows.length = index.length → 10 < k →
        buildOutput index preds (some (NDArray.d2 k rows))
          = Except.ok { cols := [("prediction", preds.map OutValue.q),
              ("proba", rows.map OutValue.vec)], index := index }) := by
  have hout : OutFrame.setCol { cols := [], index := index } "prediction"
      (preds.map OutValue.q)
      = Except.ok { cols := [("prediction", preds.map OutValue.q)], index := index } := by
    rw [OutFrame.setCol, if_pos (by simp [hp])]
    rfl
  refine ⟨?_, ?_, ?_, ?_⟩
  · rw [buildOutput, hout]
    rfl
  · intro v hv
    rw [buildOutput, hout]
    show OutFrame.setCol { cols := [("prediction", preds.map OutValue.q)], index := index }
        "proba" (v.map OutValue.q) = _
    rw [OutFrame.setCol, if_pos (by simp [hv])]
    rfl
  · intro k rows hrows hk
    rw [buildOutput, hout]
    show attachProba { cols := [("prediction", preds.map OutValue.q)], index := index }
        (some (NDArray.d2 k rows)) = _
    have hred : attachProba
        { cols := [("prediction", preds.map OutValue.q)], index := index }
        (some (NDArray.d2 k rows))
        = if k ≤ 10 then
            (List.range k).foldlM
              (fun o i => o.setCol ("proba_class_" ++ toString i)
                ((colOf rows i).map OutValue.q))
              { cols := [("prediction", preds.map OutValue.q)], index := index }
          else OutFrame.setCol
              { cols := [("prediction", preds.map OutValue.q)], index := index }
              "proba" (rows.map OutValue.vec) := rfl
    rw [hred, if_pos hk]
    exact foldlM_setCol_ok
      (fun i => ("proba_class_" ++ toString i, (colOf rows i).map OutValue.q))
      (List.range k)
      { cols := [("prediction", preds.map OutValue.q)], index := index }
      (fun i _ => by simp [colOf, hrows])
  · intro k rows hrows hk
    rw [buildOutput, hout]
    show attachProba { cols := [("prediction", preds.map OutValue.q)], index := index }
        (some (NDArray.d2 k rows)) = _
    have hred : attachProba
        { cols := [("prediction", preds.map OutValue.q)], index := index }
        (some (NDArray.d2 k rows))
        = if k ≤ 10 then
            (List.range k).foldlM
              (fun o i => o.setCol ("proba_class_" ++ toString i)
                ((colOf rows i).map OutValue.q))
              { cols := [("prediction", preds.map OutValue.q)], index := index }
          else OutFrame.setCol
              { cols := [("prediction", preds.map OutValue.q)], index := index }
              "proba" (rows.map OutValue.vec) := rfl
    rw [hred, if_neg (by omega)]
    rw [OutFrame.setCol, if_pos (by simp [hrows])]
    rfl

/-- Witness for C7: a (3,12) probability matrix yields a single proba column
whose three entries are the 12-element row vectors. -/
theorem C7_witness :
    buildOutput [0, 1, 2] [0, 1, 0]
        (some (NDArray.d2 12 [List.replicate 12 0, List.replicate 12 1,
          List.replicate 12 0]))
      = Except.ok
          { cols := [("prediction", ([0, 1, 0] : List ℚ).map OutValue.q),
              ("proba", ([List.replicate 12 0, List.replicate 12 1,
                List.replicate 12 0] : List (List ℚ)).map OutValue.vec)],
            index := [0, 1, 2] } :=
  (C7_result_assembly [0, 1, 2] [0, 1, 0] (by decide)).2.2.2 12
    [List.replicate 12 0, List.replicate 12 1, List.replicate 12 0]
    (by decide) (by decide)

lemma predictAndAssemble_ok_inv (model : PyModel) (idx : List Nat)
    (X : List (List (Option Value))) (out : OutFrame)
    (h : predictAndAssemble model idx X = Except.ok out) :
    out.index = idx ∧ ∀ p ∈ out.cols, p.2.length = idx.length := by
  rw [predictAndAssemble] at h
  rcases hpred : predict_with_model model X with e | pq <;> rw [hpred] at h
  · have h2 : (Except.error e : Except String OutFrame) = Except.ok out := h
    exact Except.noConfusion h2
  · rcases pq with ⟨preds, proba⟩
    have h2 : buildOutput idx preds proba = Except.ok out := h
    exact buildOutput_ok_inv idx preds proba out h2

/-- Claim C8: whenever run_predictions succeeds, the assembled result table
has exactly the input table's index (hence its row count and row order), and
every result column has exactly that many entries. -/
theorem C8_run_predictions_preserves_rows (model : PyModel) (feats : List String)
    (preprocessor : Option Preprocessor) (metadata : Option Metadata)
    (df : DataFrame) (out : OutFrame)
    (h : run_predictions model feats preprocessor metadata df = Except.ok out) :
    out.index = df.index ∧ ∀ p ∈ out.cols, p.2.length = df.index.length := by
  rcases preprocessor with _ | p
  · have h3 : predictAndAssemble model df.index
        ((prepare_input_dataframe df feats metadata).2).values = Except.ok out := h
    exact predictAndAssemble_ok_inv model df.index _ out h3
  · have h2 : dispatchX model df.index
        (apply_preprocessor p (prepare_input_dataframe df feats metadata).2)
        = Except.ok out := h
    rcases happ : apply_preprocessor p (prepare_input_dataframe df feats metadata).2
        with e | X
    · rw [happ] at h2
      have h3 : (Except.error e : Except String OutFrame) = Except.ok out := h2
      exact Except.noConfusion h3
    · rw [happ] at h2
      have h3 : predictAndAssemble model df.index X = Except.ok out := h2
      exact predictAndAssemble_ok_inv model df.index X out h3

/-- Witness for C8: a concrete end-to-end run over a two-row input. -/
theorem C8_witness :
    ({ cols := [("prediction", [OutValue.q 0, OutValue.q 0])], index := [0, 1] }
        : OutFrame).index
      = ({ cols := [("a",
             { dtype := DType.numeric,
               cells := [some (Value.num 1), some (Value.num 2)] })],
           index := [0, 1] } : DataFrame).index
    ∧ ∀ p ∈ ({ cols := [("prediction", [OutValue.q 0, OutValue.q 0])], index := [0, 1] }
        : OutFrame).cols,
        p.2.length
          = ({ cols := [("a",
                 { dtype := DType.numeric,
                   cells := [some (Value.num 1), some (Value.num 2)] })],
               index := [0, 1] } : DataFrame).index.length :=
  C8_run_predictions_preserves_rows
    { predict_proba? := none,
      predict? := some (fun X => X.map (fun _ => 0)),
      isBooster := false, boosterPredict := fun _ => NDArray.d1 [] }
    ["a"] none none
    { cols := [("a",
        { dtype := DType.numeric,
          cells := [some (Value.num 1), some (Value.num 2)] })],
      index := [0, 1] }
    { cols := [("prediction", [OutValue.q 0, OutValue.q 0])], index := [0, 1] }
    rfl

end FraudDetect
